import Mathlib

/-
Verification development for the debt-tracker backend verification-code
lifecycle (issuance, delivery fallback, consumption, expiry, rate limiting).

The embedding is shallow: SQLAlchemy tables become Lists of records, the
process-wide Python dicts (temp_codes, email_rate_limit) become association
lists keyed by email, datetimes become Nat seconds, and each endpoint or
helper becomes a pure Lean function returning its result together with the
updated stores.  Python function and field names are kept where Lean allows.

Sources embedded:
  src/app/auth.py           (EmailRateLimiter, store_temp_code, get_temp_code,
                             send_verification_email, verify_code_with_fallback)
  src/app/routers/auth.py   (forgot_password, resend_code, verify_password_reset,
                             verify_email)
  src/routers/auth.py + src/database.py
                            (register / reset_password revision whose
                             VerificationCode has no code_type column)
-/

set_option autoImplicit false

namespace DebtTracker

/-- String constant for the database code_type of email-verification codes
(src/app/routers/auth.py line 53). -/
def tEmailVerification : String := "email_verification"

/-- String constant for the database code_type of password-reset codes
(src/app/routers/auth.py line 150). -/
def tPasswordReset : String := "password_reset"

/-- String constant for the temp-store code_type used by
send_verification_email in src/app/auth.py line 305: store_temp_code is
called there with the literal "email". -/
def tEmail : String := "email"

/-- Row of the verification_codes table (src/app/database.py lines 95-104).
The used flag is named `used` there and accessed as `is_used` by
src/app/routers/auth.py; both denote the same column here. Times are Nat
seconds. -/
structure CodeRecord where
  rid : Nat
  email : String
  code : String
  codeType : String
  expiresAt : Nat
  isUsed : Bool
  createdAt : Nat
deriving DecidableEq

/-- Filter of the validity query in verify_code_with_fallback
(src/app/auth.py lines 385-391): email, code and code_type equal, used is
False, and expires_at strictly greater than now. -/
def matchesValid (email code codeType : String) (now : Nat) (r : CodeRecord) : Bool :=
  r.email == email && r.code == code && r.codeType == codeType &&
    r.isUsed == false && decide (now < r.expiresAt)

/-- The .first() of the validity query: first matching row of the table,
none when no row matches. -/
def lookupValid (db : List CodeRecord) (email code codeType : String) (now : Nat) :
    Option CodeRecord :=
  db.find? (matchesValid email code codeType now)

/-- Mutation `code_record.used = True; db.commit()` on the row returned by
the validity query: the first matching row gets its used flag set, the
rest of the table is unchanged. -/
def markFirstValidUsed (email code codeType : String) (now : Nat) :
    List CodeRecord → List CodeRecord
  | [] => []
  | r :: rest =>
      if matchesValid email code codeType now r then
        { r with isUsed := true } :: rest
      else
        r :: markFirstValidUsed email code codeType now rest

/-- Value stored in the temp_codes dict (src/app/auth.py lines 174-183). -/
structure TempEntry where
  code : String
  codeType : String
  expiresAt : Nat
  createdAt : Nat
deriving DecidableEq

/-- The process-wide temp_codes dict (src/app/auth.py line 57), embedded as
an association list keyed by email; insertion replaces the entry of the
key, as Python dict assignment does. -/
abbrev TempStore := List (String × TempEntry)

/-- Implementation of store_temp_code (src/app/auth.py lines 174-183):
temp_codes[email] = {code, code_type, expires_at = now + expiry_minutes
minutes, created_at = now}. -/
def store_temp_code (st : TempStore) (email code codeType : String)
    (expiryMinutes now : Nat) : TempStore :=
  (email, ⟨code, codeType, now + expiryMinutes * 60, now⟩) ::
    List.filter (fun p => p.1 != email) st

/-- Implementation of get_temp_code (src/app/auth.py lines 186-200): look
the email up in temp_codes; on a full match (code, code_type, expires_at
strictly after now) delete the entry and return True, otherwise leave the
store unchanged and return False. -/
def get_temp_code (st : TempStore) (email code codeType : String) (now : Nat) :
    Bool × TempStore :=
  match List.find? (fun p => p.1 == email) st with
  | none => (false, st)
  | some (_, d) =>
      if d.code == code && d.codeType == codeType && decide (now < d.expiresAt) then
        (true, List.filter (fun p => p.1 != email) st)
      else
        (false, st)

/-- Combined mutable state touched by verify_code_with_fallback: the
verification_codes table and the temp_codes dict. -/
structure VState where
  db : List CodeRecord
  temp : TempStore
deriving DecidableEq

/-- Implementation of verify_code_with_fallback (src/app/auth.py lines
380-404): first the database validity query, marking the found row used;
otherwise get_temp_code on the temp store; False when neither matches. -/
def verify_code_with_fallback (email code codeType : String) (now : Nat)
    (s : VState) : Bool × VState :=
  match lookupValid s.db email code codeType now with
  | some _ =>
      (true, { s with db := markFirstValidUsed email code codeType now s.db })
  | none =>
      let res := get_temp_code s.temp email code codeType now
      (res.1, { s with temp := res.2 })

/-- Per-email value of the email_rate_limit dict (src/app/auth.py lines
68-69): a request count and the window start time. -/
structure RateData where
  count : Nat
  windowStart : Nat
deriving DecidableEq

/-- The process-wide email_rate_limit dict (src/app/auth.py line 44),
embedded as an association list keyed by email. -/
abbrev RateMap := List (String × RateData)

/-- Dict lookup for the rate limiter. -/
def lookupRate (m : RateMap) (email : String) : Option RateData :=
  Option.map Prod.snd (List.find? (fun p => p.1 == email) m)

/-- Dict write for the rate limiter: replace or insert the entry of the
email. -/
def insertRate (m : RateMap) (email : String) (rd : RateData) : RateMap :=
  (email, rd) :: List.filter (fun p => p.1 != email) m

/-- Per-email step of EmailRateLimiter.is_rate_limited (src/app/auth.py
lines 64-84) on the Option entry of the email: a missing email is inserted
with count 0 and window_start now and the call is allowed without
incrementing; an existing entry first has its window reset (count 0,
window_start now) when now - window_start is strictly greater than the
window, then the call is denied when count has reached the limit and
otherwise allowed with the count incremented. -/
def rateStep (limit window now : Nat) : Option RateData → Bool × RateData
  | none => (false, ⟨0, now⟩)
  | some rd =>
      let rd1 := if now - rd.windowStart > window then (⟨0, now⟩ : RateData) else rd
      if rd1.count ≥ limit then (true, rd1)
      else (false, ⟨rd1.count + 1, rd1.windowStart⟩)

/-- Implementation of EmailRateLimiter.is_rate_limited over the dict:
returns the limited flag and the updated dict. -/
def is_rate_limited (email : String) (limit window now : Nat) (m : RateMap) :
    Bool × RateMap :=
  let res := rateStep limit window now (lookupRate m email)
  (res.1, insertRate m email res.2)

/-- Results of a sequence of is_rate_limited calls for one email at the
given times (true means the call was rate limited, i.e. denied). -/
def rateTrace (email : String) (limit window : Nat) : List Nat → RateMap → List Bool
  | [], _ => []
  | t :: ts, m =>
      let res := is_rate_limited email limit window t m
      res.1 :: rateTrace email limit window ts res.2

/-- Decidable equality for endpoint results, used to evaluate witnesses. -/
instance {ε α : Type} [DecidableEq ε] [DecidableEq α] : DecidableEq (Except ε α) :=
  fun x y =>
    match x, y with
    | .ok a, .ok b => decidable_of_iff (a = b) (by simp)
    | .ok _, .error _ => isFalse (fun hc => Except.noConfusion hc)
    | .error _, .ok _ => isFalse (fun hc => Except.noConfusion hc)
    | .error e, .error f => decidable_of_iff (e = f) (by simp)

/-- Row of the users table.  The two revisions name the verified flag
is_verified (src/database.py, src/app/database.py) and access it as
is_email_verified (src/app/routers/auth.py); one field stands for both. -/
structure UserRec where
  uid : Nat
  email : String
  password : String
  fullname : String
  isEmailVerified : Bool
deriving DecidableEq

/-- Synthetic autoincrement id for a fresh row. -/
def nextId (db : List CodeRecord) : Nat := db.length

/-- Error marker for the user-missing 404 responses. -/
def errUserNotFound : String := "user_not_found"

/-- Error marker for the rate-limit Exception raised by
send_verification_email and for the 429 of resend_code. -/
def errRateLimited : String := "rate_limited"

/-- Error marker for the 500 raised when the email service reports an
error (src/app/routers/auth.py lines 161-179 and 424-441). -/
def errEmailFailed : String := "email_send_failed"

/-- Error marker for the invalid code_type 400 of resend_code. -/
def errInvalidCodeType : String := "invalid_code_type"

/-- Error marker for the invalid-or-expired-code 400 responses. -/
def errInvalidCode : String := "invalid_or_expired_code"

/-- Error marker for the already-registered 400 of register. -/
def errEmailRegistered : String := "email_already_registered"

/-- Concrete identity used by witnesses, from the concrete scenario of the
specification. -/
def emailA : String := "a@x.com"

/-- Concrete six-digit code used by witnesses. -/
def codeA : String := "111111"

/-- Second concrete six-digit code used by witnesses. -/
def codeB : String := "222222"

/-- Concrete password strings and a name used by witnesses. -/
def pwA : String := "hunter2"

/-- Second concrete password string used by witnesses. -/
def pwB : String := "hunter3"

/-- Concrete full name used by witnesses. -/
def nameA : String := "Ada"

/-- Status string of the verified success responses. -/
def statusVerified : String := "verified"

/-- Status string of the already-verified success response of verify_email
(src/app/routers/auth.py line 321). -/
def statusAlreadyVerified : String := "already_verified"

/-- Outcome fields email_sent and fallback_used of the dict returned by
send_verification_email (src/app/auth.py lines 297-330). -/
structure SendOutcome where
  emailSent : Bool
  fallbackUsed : Bool
deriving DecidableEq

/-- Implementation of send_verification_email (src/app/auth.py lines
283-330).  The Notifier outcome is the Bool emailSent returned by
send_email_sync, which catches every exception internally and returns a
Bool.  The function first consults the rate limiter (default limit 5,
window 300) and raises when limited; on a successful send it reports
email_sent true; on a failed send it stores the code in temp_codes under
code_type "email" with a 10 minute expiry and reports email_sent false,
fallback_used true.  The updated rate map and temp store are returned in
every case. -/
def send_verification_email (email code : String) (emailSent : Bool) (now : Nat)
    (rl : RateMap) (st : TempStore) : Except String SendOutcome × RateMap × TempStore :=
  let lim := is_rate_limited email 5 300 now rl
  if lim.1 then (.error errRateLimited, lim.2, st)
  else if emailSent then (.ok ⟨true, false⟩, lim.2, st)
  else (.ok ⟨false, true⟩, lim.2, store_temp_code st email code tEmail 10 now)

/-- Implementation of the forgot_password endpoint (src/app/routers/auth.py
lines 126-179): 404 when the user is unknown; otherwise a new
password_reset code is stored with a 15 minute expiry and committed, with
no invalidation of prior codes; then the email is sent, and an error
status from the email service is surfaced as a 500 error (the committed
code row remains). -/
def forgot_password (users : List UserRec) (db : List CodeRecord)
    (email resetCode : String) (emailOk : Bool) (now : Nat) :
    Except String Unit × List CodeRecord :=
  match List.find? (fun u => u.email == email) users with
  | none => (.error errUserNotFound, db)
  | some _ =>
      let db1 := db ++ [⟨nextId db, email, resetCode, tPasswordReset, now + 15 * 60, false, now⟩]
      if emailOk then (.ok (), db1) else (.error errEmailFailed, db1)

/-- Issue step of the resend_code endpoint (src/app/routers/auth.py lines
385-413): marks every unused code of the (email, code_type) pair used,
then stores a fresh unused code of that pair with a 15 minute expiry for
password_reset and 10 minutes for email_verification. -/
def resend_issue (db : List CodeRecord) (email codeType newCode : String)
    (now : Nat) : List CodeRecord :=
  let db1 := List.map
    (fun r =>
      if r.email == email && r.codeType == codeType && r.isUsed == false then
        { r with isUsed := true }
      else r) db
  let expMin := if codeType == tPasswordReset then 15 else 10
  db1 ++ [⟨nextId db1, email, newCode, codeType, now + expMin * 60, false, now⟩]

/-- Full resend_code endpoint around the issue step above: code_type
validation, 404 on unknown user, 429 on three or more codes of that type
created in the last five minutes, then the issue step and the email send,
whose error is surfaced as a 500 after the commit. -/
def resend_code (users : List UserRec) (db : List CodeRecord)
    (email codeType newCode : String) (emailOk : Bool) (now : Nat) :
    Except String Unit × List CodeRecord :=
  if !(codeType == tEmailVerification || codeType == tPasswordReset) then
    (.error errInvalidCodeType, db)
  else
    match List.find? (fun u => u.email == email) users with
    | none => (.error errUserNotFound, db)
    | some _ =>
        let recent := List.filter
          (fun r => r.email == email && r.codeType == codeType &&
            decide (r.createdAt > now - 300)) db
        if recent.length ≥ 3 then (.error errRateLimited, db)
        else
          let db2 := resend_issue db email codeType newCode now
          if emailOk then (.ok (), db2) else (.error errEmailFailed, db2)

/-- Implementation of the verify_password_reset endpoint
(src/app/routers/auth.py lines 182-222): looks up an unused, unexpired
password_reset code for (email, reset_code), 400 when none, 404 when the
user is unknown, and otherwise returns the verified status; the code is
deliberately not marked used and nothing is committed, so the users table
and the code table are returned unchanged in every branch. -/
def verify_password_reset (users : List UserRec) (db : List CodeRecord)
    (email resetCode : String) (now : Nat) :
    Except String String × List UserRec × List CodeRecord :=
  match lookupValid db email resetCode tPasswordReset now with
  | none => (.error errInvalidCode, users, db)
  | some _ =>
      match List.find? (fun u => u.email == email) users with
      | none => (.error errUserNotFound, users, db)
      | some _ => (.ok statusVerified, users, db)

/-- Implementation of the verify_email endpoint (src/app/routers/auth.py
lines 298-350): 404 when the user is unknown; when the user is already
verified an already_verified success is returned before any
verification-code query, for any submitted code; otherwise an unused,
unexpired email_verification code is looked up (400 when none), the user
is marked verified and the code marked used. -/
def verify_email (users : List UserRec) (db : List CodeRecord)
    (email code : String) (now : Nat) :
    Except String String × List UserRec × List CodeRecord :=
  match List.find? (fun u => u.email == email) users with
  | none => (.error errUserNotFound, users, db)
  | some u =>
      if u.isEmailVerified then (.ok statusAlreadyVerified, users, db)
      else
        match lookupValid db email code tEmailVerification now with
        | none => (.error errInvalidCode, users, db)
        | some _ =>
            (.ok statusVerified,
             List.map (fun v =>
               if v.email == email then { v with isEmailVerified := true } else v) users,
             markFirstValidUsed email code tEmailVerification now db)

/-- Row of the verification_codes table of the revision in src/database.py
(lines 70-78): this revision has no code_type column at all. -/
structure CodeRecordNT where
  rid : Nat
  email : String
  code : String
  expiresAt : Nat
  used : Bool
  createdAt : Nat
deriving DecidableEq

/-- Filter of the code queries of src/routers/auth.py (verify_email lines
104-109, reset_password lines 232-237): email and code equal, used is
False, expires_at strictly after now — with no purpose filter, since the
schema has none. -/
def matchesValidNT (email code : String) (now : Nat) (r : CodeRecordNT) : Bool :=
  r.email == email && r.code == code && r.used == false && decide (now < r.expiresAt)

/-- Mutation code_record.used = True on the first row found by the
no-code_type query. -/
def markFirstValidUsedNT (email code : String) (now : Nat) :
    List CodeRecordNT → List CodeRecordNT
  | [] => []
  | r :: rest =>
      if matchesValidNT email code now r then
        { r with used := true } :: rest
      else
        r :: markFirstValidUsedNT email code now rest

/-- Implementation of the register endpoint of src/routers/auth.py (lines
38-97), database essence: an already-verified existing user is a 400
error; an unverified one is deleted and re-created; every
VerificationCode row of the email is deleted; a fresh code row for the
email is stored with a 10 minute expiry and used False.  The bcrypt hash
is an opaque parameter. -/
def register (hash : String → String) (users : List UserRec) (db : List CodeRecordNT)
    (email password fullname code : String) (now : Nat) :
    Except String (List UserRec × List CodeRecordNT) :=
  let existing := List.find? (fun u => u.email == email) users
  if (Option.map UserRec.isEmailVerified existing).getD false then
    .error errEmailRegistered
  else
    let users1 := List.filter (fun u => u.email != email) users ++
      [⟨users.length, email, hash password, fullname, false⟩]
    let db1 := List.filter (fun r => r.email != email) db
    let db2 := db1 ++ [⟨db1.length, email, code, now + 10 * 60, false, now⟩]
    .ok (users1, db2)

/-- Implementation of the reset_password endpoint of src/routers/auth.py
(lines 227-258): looks up an unused, unexpired code for (email, code)
with no purpose filter, 400 when none, 404 when the user is unknown, and
otherwise updates the password to the hash of the new one and marks the
code row used. -/
def reset_password (hash : String → String) (users : List UserRec)
    (db : List CodeRecordNT) (email code newPassword : String) (now : Nat) :
    Except String (List UserRec × List CodeRecordNT) :=
  match List.find? (matchesValidNT email code now) db with
  | none => .error errInvalidCode
  | some _ =>
      match List.find? (fun u => u.email == email) users with
      | none => .error errUserNotFound
      | some _ =>
          .ok (List.map (fun v =>
                 if v.email == email then { v with password := hash newPassword } else v) users,
               markFirstValidUsedNT email code now db)

/-- Propositional reading of the validity filter. -/
theorem matchesValid_iff (email code codeType : String) (now : Nat) (r : CodeRecord) :
    matchesValid email code codeType now r = true ↔
      (r.email = email ∧ r.code = code ∧ r.codeType = codeType ∧
        r.isUsed = false ∧ now < r.expiresAt) := by
  simp [matchesValid, and_assoc]

/-- Rows matching the validity filter at a later time also match at any
earlier time: every condition except the expiry bound is independent of
the clock. -/
theorem matchesValid_antitone (email code codeType : String) (now now2 : Nat)
    (r : CodeRecord) (hle : now ≤ now2)
    (h : matchesValid email code codeType now2 r = true) :
    matchesValid email code codeType now r = true := by
  rw [matchesValid_iff] at h ⊢
  obtain ⟨h1, h2, h3, h4, h5⟩ := h
  exact ⟨h1, h2, h3, h4, by omega⟩

/-- A temp-store probe that fails keeps failing at every later time, as
long as the store is unchanged. -/
theorem get_temp_code_false_antitone (st : TempStore) (email code codeType : String)
    (now now2 : Nat) (hle : now ≤ now2)
    (h : (get_temp_code st email code codeType now).1 = false) :
    (get_temp_code st email code codeType now2).1 = false := by
  unfold get_temp_code at h ⊢
  cases hf : List.find? (fun p => p.1 == email) st with
  | none => simp [hf]
  | some p =>
      obtain ⟨k, d⟩ := p
      rw [hf] at h
      simp only [hf]
      cases hcc : (d.code == code && d.codeType == codeType && decide (now2 < d.expiresAt)) with
      | false => simp [hcc]
      | true =>
          exfalso
          simp only [Bool.and_eq_true, decide_eq_true_eq] at hcc
          obtain ⟨⟨hc1, hc2⟩, hc3⟩ := hcc
          have hnow : now < d.expiresAt := by omega
          simp [hc1, hc2, hnow] at h

/-- The claim that the rate limiter increments on a missing window and
denies the fourth in-window call with limit 3 is false on the code: a
missing window is created with count 0 (not 1) and the call is allowed
without incrementing, so the first four calls inside one window are all
allowed. -/
theorem rate_limiter_fourth_call_allowed :
    rateStep 3 300 0 none = (false, ⟨0, 0⟩) ∧
    rateTrace emailA 3 300 [0, 10, 20, 30] [] = [false, false, false, false] := by
  decide

/-- Claim C3 (amended): the rate limiter creates a missing window with
count 0, window_start now and allows without incrementing; inside a live
window it allows and increments exactly when count is below the limit and
denies otherwise; an expired window (now - window_start strictly above
the window) is reset to count 0, window_start now and the call allowed
with count 1; consequently with limit 3 and window 300 the first four
calls inside the window are allowed, the fifth is denied, and a call
after the window has expired is allowed again. -/
theorem rate_limiter_window_algorithm :
    (∀ limit window now, rateStep limit window now none = (false, ⟨0, now⟩)) ∧
    (∀ limit window now rd, now - rd.windowStart ≤ window → rd.count < limit →
      rateStep limit window now (some rd) = (false, ⟨rd.count + 1, rd.windowStart⟩)) ∧
    (∀ limit window now rd, now - rd.windowStart ≤ window → limit ≤ rd.count →
      rateStep limit window now (some rd) = (true, rd)) ∧
    (∀ limit window now rd, window < now - rd.windowStart → 0 < limit →
      rateStep limit window now (some rd) = (false, ⟨1, now⟩)) ∧
    rateTrace emailA 3 300 [0, 10, 20, 30, 40, 341] [] =
      [false, false, false, false, true, false] := by
  refine ⟨fun limit window now => rfl, ?_, ?_, ?_, by decide⟩
  · intro limit window now rd h1 h2
    have hwin : (if now - rd.windowStart > window then (⟨0, now⟩ : RateData) else rd) = rd :=
      if_neg (by omega)
    simp only [rateStep, hwin]
    rw [if_neg (by omega)]
  · intro limit window now rd h1 h2
    have hwin : (if now - rd.windowStart > window then (⟨0, now⟩ : RateData) else rd) = rd :=
      if_neg (by omega)
    simp only [rateStep, hwin]
    rw [if_pos (by omega)]
  · intro limit window now rd h1 h2
    have hwin : (if now - rd.windowStart > window then (⟨0, now⟩ : RateData) else rd) =
        (⟨0, now⟩ : RateData) := if_pos (by omega)
    simp only [rateStep, hwin]
    rw [if_neg (by omega)]

/-- Witness for the amended rate-limiter claim: an in-window call with
count 2 below limit 3 is allowed and increments the count. -/
theorem rate_limiter_window_algorithm_witness :
    rateStep 3 300 50 (some ⟨2, 0⟩) = (false, ⟨3, 0⟩) :=
  rate_limiter_window_algorithm.2.1 3 300 50 ⟨2, 0⟩ (by decide) (by decide)

/-- The claim that issuing a second code always invalidates the first is
false on the forgot_password path: forgot_password stores code 111111 for
a@x.com at time 0 and code 222222 at time 60 without touching the first
row, and consuming 111111 at time 120 still returns true. -/
theorem forgot_password_keeps_prior_code_valid :
    (verify_code_with_fallback emailA codeA tPasswordReset 120
      ⟨(forgot_password [⟨0, emailA, pwA, nameA, true⟩]
          (forgot_password [⟨0, emailA, pwA, nameA, true⟩] [] emailA codeA true 0).2
          emailA codeB true 60).2, []⟩).1 = true := by
  decide

/-- Claim C1 (amended): only the resend_code issue path invalidates prior
codes.  Every resend_code run either leaves the code table untouched (an
error before the issue step) or performs the issue step resend_issue;
after resend_issue runs for (identity, purpose), every code C1 different
from the fresh code fails the validity lookup of that pair at every time,
so consuming C1 returns false whenever the fallback store has no matching
entry.  The forgot_password path stores a new code with no invalidation,
so there a prior code stays consumable. -/
theorem resend_issue_invalidates_prior :
    (∀ users db email codeType newCode emailOk now,
      (resend_code users db email codeType newCode emailOk now).2 = db ∨
      (resend_code users db email codeType newCode emailOk now).2 =
        resend_issue db email codeType newCode now) ∧
    (∀ db email codeType c1 newCode now now2 temp, c1 ≠ newCode →
      lookupValid (resend_issue db email codeType newCode now) email c1 codeType now2
        = none ∧
      ((get_temp_code temp email c1 codeType now2).1 = false →
        (verify_code_with_fallback email c1 codeType now2
          ⟨resend_issue db email codeType newCode now, temp⟩).1 = false)) := by
  constructor
  · intro users db email codeType newCode emailOk now
    simp only [resend_code]
    repeat' split
    all_goals first | (left; rfl) | (right; rfl)
  · intro db email codeType c1 newCode now now2 temp hne
    have hnone : lookupValid (resend_issue db email codeType newCode now)
        email c1 codeType now2 = none := by
      rw [lookupValid, List.find?_eq_none]
      intro x hx
      simp only [resend_issue, List.mem_append, List.mem_map, List.mem_singleton] at hx
      intro hmatch
      rw [matchesValid_iff] at hmatch
      obtain ⟨hx1, hx2, hx3, hx4, hx5⟩ := hmatch
      rcases hx with ⟨y, hy, hyx⟩ | hx
      · by_cases hc : (y.email == email && y.codeType == codeType && y.isUsed == false) = true
        · rw [if_pos hc] at hyx
          rw [← hyx] at hx4
          simp at hx4
        · rw [if_neg hc] at hyx
          apply hc
          rw [hyx]
          simp [hx1, hx3, hx4]
      · rw [hx] at hx2
        exact hne (hx2.symm)
    refine ⟨hnone, fun htemp => ?_⟩
    rw [verify_code_with_fallback]
    simp only [hnone]
    exact htemp

/-- Witness for the amended invalidation claim: a prior unused, unexpired
reset code 111111 fails the validity lookup after resend_issue stores
222222 for the same pair. -/
theorem resend_issue_invalidates_prior_witness :
    lookupValid (resend_issue [⟨0, emailA, codeA, tPasswordReset, 900, false, 0⟩]
      emailA tPasswordReset codeB 60) emailA codeA tPasswordReset 120 = none :=
  (resend_issue_invalidates_prior.2 [⟨0, emailA, codeA, tPasswordReset, 900, false, 0⟩]
    emailA tPasswordReset codeA codeB 60 120 [] (by decide)).1

/-- Claim C4: the validity lookup returns a record exactly when some
stored record matches identity, code and purpose, is unused and has
expires_at strictly after now; any returned record is such a record; and
for a record expiring at issued_at + 600 seconds (TTL 10 minutes) the
lookup still finds it one second before issued_at + 10min and returns
none from issued_at + 10min on. -/
theorem lookup_valid_characterization (db : List CodeRecord)
    (email code codeType : String) (now : Nat) :
    ((lookupValid db email code codeType now).isSome ↔
      ∃ r ∈ db, r.email = email ∧ r.code = code ∧ r.codeType = codeType ∧
        r.isUsed = false ∧ now < r.expiresAt) ∧
    (∀ r, lookupValid db email code codeType now = some r →
      r ∈ db ∧ r.email = email ∧ r.code = code ∧ r.codeType = codeType ∧
        r.isUsed = false ∧ now < r.expiresAt) ∧
    (∀ issuedAt (r : CodeRecord), r.expiresAt = issuedAt + 600 → r.email = email →
      r.code = code → r.codeType = codeType → r.isUsed = false →
      (lookupValid [r] email code codeType (issuedAt + 599)).isSome = true ∧
      ∀ now3, issuedAt + 600 ≤ now3 →
        lookupValid [r] email code codeType now3 = none) := by
  refine ⟨?_, ?_, ?_⟩
  · rw [lookupValid, List.find?_isSome]
    constructor
    · rintro ⟨r, hr, hp⟩
      exact ⟨r, hr, (matchesValid_iff email code codeType now r).1 hp⟩
    · rintro ⟨r, hr, hp⟩
      exact ⟨r, hr, (matchesValid_iff email code codeType now r).2 hp⟩
  · intro r hr
    have hmem := List.mem_of_find?_eq_some hr
    have hp := List.find?_some hr
    exact ⟨hmem, (matchesValid_iff email code codeType now r).1 hp⟩
  · intro issuedAt r hexp he hc ht hu
    constructor
    · have hm : matchesValid email code codeType (issuedAt + 599) r = true := by
        rw [matchesValid_iff]
        exact ⟨he, hc, ht, hu, by omega⟩
      simp [lookupValid, List.find?, hm]
    · intro now3 h3
      have hm2 : matchesValid email code codeType now3 r = false := by
        simp only [matchesValid, he, hc, ht, hu, hexp]
        simp
        omega
      simp [lookupValid, List.find?, hm2]

/-- Witness for the lookup characterization: a record with TTL 10 minutes
issued at time 0 is still found at time 599. -/
theorem lookup_valid_characterization_witness :
    (lookupValid [⟨0, emailA, codeA, tEmailVerification, 600, false, 0⟩]
      emailA codeA tEmailVerification 599).isSome = true :=
  ((lookup_valid_characterization [⟨0, emailA, codeA, tEmailVerification, 600, false, 0⟩]
      emailA codeA tEmailVerification 0).2.2 0
      ⟨0, emailA, codeA, tEmailVerification, 600, false, 0⟩ rfl rfl rfl rfl rfl).1

/-- After marking, no row of a table that held at most one row matching
the validity filter still matches it. -/
theorem markFirst_no_valid_match (email code codeType : String) (now : Nat)
    (l : List CodeRecord)
    (hcount : List.countP (matchesValid email code codeType now) l ≤ 1) :
    ∀ x ∈ markFirstValidUsed email code codeType now l,
      matchesValid email code codeType now x = false := by
  induction l with
  | nil => intro x hx; simp [markFirstValidUsed] at hx
  | cons r rest ih =>
      intro x hx
      by_cases hm : matchesValid email code codeType now r = true
      · simp only [markFirstValidUsed, if_pos hm] at hx
        rcases List.mem_cons.mp hx with hx1 | hx2
        · rw [hx1]; simp [matchesValid]
        · rw [List.countP_cons_of_pos _ _ hm] at hcount
          have h0 : List.countP (matchesValid email code codeType now) rest = 0 := by
            omega
          exact Bool.eq_false_iff.2 (List.countP_eq_zero.mp h0 x hx2)
      · simp only [markFirstValidUsed, if_neg hm] at hx
        rcases List.mem_cons.mp hx with hx1 | hx2
        · rw [hx1]; exact Bool.eq_false_iff.2 hm
        · rw [List.countP_cons_of_neg _ _ hm] at hcount
          exact ih hcount x hx2

/-- A successful temp-store consumption leaves the store with the entry of
that email deleted. -/
theorem get_temp_code_true_snd (st : TempStore) (email code codeType : String)
    (now : Nat) (h : (get_temp_code st email code codeType now).1 = true) :
    (get_temp_code st email code codeType now).2 =
      List.filter (fun p => p.1 != email) st := by
  unfold get_temp_code at h ⊢
  cases hf : List.find? (fun p => p.1 == email) st with
  | none => simp [hf] at h
  | some p =>
      obtain ⟨k, d⟩ := p
      cases hcc : (d.code == code && d.codeType == codeType && decide (now < d.expiresAt)) with
      | false => simp [hf, hcc] at h
      | true => simp [hf, hcc]

/-- After the entry of an email is deleted, a temp-store probe for that
email fails. -/
theorem get_temp_code_deleted (st : TempStore) (email code codeType : String)
    (now2 : Nat) :
    (get_temp_code (List.filter (fun p => p.1 != email) st)
      email code codeType now2).1 = false := by
  have hf : List.find? (fun p => p.1 == email)
      (List.filter (fun p => p.1 != email) st) = none := by
    rw [List.find?_eq_none]
    intro x hx
    have := (List.mem_filter.mp hx).2
    simp only [bne_iff_ne, ne_eq] at this
    simp [this]
  simp [get_temp_code, hf]

/-- Claim C2: consume returns true at most once per issued code.  The
hypothesis says the (identity, code, purpose) triple is live in at most
one place — at most one unused, unexpired database row and not
additionally a fallback entry — which is what each issue path of the
repository establishes, since every issue writes a single store.  Under
it, after a call of verify_code_with_fallback that returns true, every
later call with the same identity, code and purpose returns false. -/
theorem consume_returns_true_at_most_once (email code codeType : String)
    (now now2 : Nat) (s : VState)
    (hone : List.countP (matchesValid email code codeType now) s.db +
      (if (get_temp_code s.temp email code codeType now).1 then 1 else 0) ≤ 1)
    (hle : now ≤ now2)
    (hfirst : (verify_code_with_fallback email code codeType now s).1 = true) :
    (verify_code_with_fallback email code codeType now2
      (verify_code_with_fallback email code codeType now s).2).1 = false := by
  cases hdb : lookupValid s.db email code codeType now with
  | some r =>
      have hpos : 0 < List.countP (matchesValid email code codeType now) s.db := by
        rw [List.countP_pos_iff]
        exact ⟨r, List.mem_of_find?_eq_some hdb, List.find?_some hdb⟩
      have htempf : (get_temp_code s.temp email code codeType now).1 = false := by
        cases h : (get_temp_code s.temp email code codeType now).1 with
        | false => rfl
        | true =>
            rw [h] at hone
            have h1 : (if true = true then 1 else 0) = 1 := rfl
            rw [h1] at hone
            omega
      have hstate : (verify_code_with_fallback email code codeType now s).2 =
          ⟨markFirstValidUsed email code codeType now s.db, s.temp⟩ := by
        simp [verify_code_with_fallback, hdb]
      have hnone2 : lookupValid (markFirstValidUsed email code codeType now s.db)
          email code codeType now2 = none := by
        rw [lookupValid, List.find?_eq_none]
        intro x hx hmx
        have hnow := matchesValid_antitone email code codeType now now2 x hle hmx
        have hcount : List.countP (matchesValid email code codeType now) s.db ≤ 1 :=
          le_trans (Nat.le_add_right _ _) hone
        have hfalse := markFirst_no_valid_match email code codeType now s.db hcount x hx
        rw [hnow] at hfalse
        simp at hfalse
      have htempf2 : (get_temp_code s.temp email code codeType now2).1 = false :=
        get_temp_code_false_antitone s.temp email code codeType now now2 hle htempf
      rw [hstate]
      simp [verify_code_with_fallback, hnone2, htempf2]
  | none =>
      have htempt : (get_temp_code s.temp email code codeType now).1 = true := by
        have h2 := hfirst
        simp [verify_code_with_fallback, hdb] at h2
        exact h2
      have hstate : (verify_code_with_fallback email code codeType now s).2 =
          ⟨s.db, (get_temp_code s.temp email code codeType now).2⟩ := by
        simp [verify_code_with_fallback, hdb]
      have hnone2 : lookupValid s.db email code codeType now2 = none := by
        rw [lookupValid, List.find?_eq_none]
        intro x hx hmx
        have hnow := matchesValid_antitone email code codeType now now2 x hle hmx
        rw [lookupValid, List.find?_eq_none] at hdb
        exact hdb x hx hnow
      rw [hstate, get_temp_code_true_snd s.temp email code codeType now htempt]
      simp [verify_code_with_fallback, hnone2, get_temp_code_deleted]

/-- Witness for the at-most-once claim: one stored database code, consumed
at time 0; the repeated call at time 1 returns false. -/
theorem consume_returns_true_at_most_once_witness :
    (verify_code_with_fallback emailA codeA tEmailVerification 1
      (verify_code_with_fallback emailA codeA tEmailVerification 0
        ⟨[⟨0, emailA, codeA, tEmailVerification, 600, false, 0⟩], []⟩).2).1 = false :=
  consume_returns_true_at_most_once emailA codeA tEmailVerification 0 1
    ⟨[⟨0, emailA, codeA, tEmailVerification, 600, false, 0⟩], []⟩
    (by decide) (by decide) (by decide)

/-- The claim that a code issued for email verification never validates a
password reset is false in the src/routers revision: register stores code
111111 for a@x.com (for email verification, in a schema with no purpose
column) and reset_password then accepts exactly that code. -/
theorem reset_password_accepts_verification_code :
    register (fun p => p) [] [] emailA pwA nameA codeA 0 =
      .ok ([⟨0, emailA, pwA, nameA, false⟩], [⟨0, emailA, codeA, 600, false, 0⟩]) ∧
    (reset_password (fun p => p) [⟨0, emailA, pwA, nameA, false⟩]
      [⟨0, emailA, codeA, 600, false, 0⟩] emailA codeA pwB 300).isOk = true := by
  decide

/-- Claim C5 (amended): purpose isolation holds for
verify_code_with_fallback in src/app/auth.py, whose database query and
fallback probe both filter by code_type: whenever every stored copy of
(identity, code) — database row or fallback entry — carries a code_type
different from the queried purpose, consume returns false.  It fails in
the src/routers revision, whose codes carry no purpose at all. -/
theorem purpose_isolation_with_code_type (s : VState) (email code purpose : String)
    (now : Nat)
    (hdb : ∀ r ∈ s.db, r.email = email → r.code = code → r.codeType ≠ purpose)
    (htemp : ∀ p ∈ s.temp, p.1 = email → p.2.code = code → p.2.codeType ≠ purpose) :
    (verify_code_with_fallback email code purpose now s).1 = false := by
  have hnone : lookupValid s.db email code purpose now = none := by
    rw [lookupValid, List.find?_eq_none]
    intro x hx hmx
    rw [matchesValid_iff] at hmx
    obtain ⟨h1, h2, h3, _, _⟩ := hmx
    exact hdb x hx h1 h2 h3
  rw [verify_code_with_fallback]
  simp only [hnone]
  cases hf : List.find? (fun p => p.1 == email) s.temp with
  | none => simp [get_temp_code, hf]
  | some p =>
      obtain ⟨k, d⟩ := p
      have hk : k = email := by
        have := List.find?_some hf
        simpa using this
      have hmem := List.mem_of_find?_eq_some hf
      by_cases hcode : d.code = code
      · have hne := htemp (k, d) hmem hk hcode
        simp [get_temp_code, hf, hne]
      · simp [get_temp_code, hf, hcode]

/-- Witness for the amended purpose-isolation claim: a database code and a
fallback entry both stored under email-verification purposes are not
consumable under password_reset. -/
theorem purpose_isolation_with_code_type_witness :
    (verify_code_with_fallback emailA codeA tPasswordReset 10
      ⟨[⟨0, emailA, codeA, tEmailVerification, 600, false, 0⟩],
       [(emailA, ⟨codeA, tEmail, 600, 0⟩)]⟩).1 = false :=
  purpose_isolation_with_code_type
    ⟨[⟨0, emailA, codeA, tEmailVerification, 600, false, 0⟩],
     [(emailA, ⟨codeA, tEmail, 600, 0⟩)]⟩
    emailA codeA tPasswordReset 10 (by decide) (by decide)

/-- The claim that issue never surfaces a delivery failure as fatal is
false for the forgot_password endpoint of src/app/routers/auth.py: with
the email service reporting an error it raises a 500 error and stores no
fallback entry. -/
theorem forgot_password_surfaces_email_failure :
    (forgot_password [⟨0, emailA, pwA, nameA, true⟩] [] emailA codeA false 0).1 =
      .error errEmailFailed := by
  decide

/-- Claim C6 (amended): send_verification_email in src/app/auth.py never
surfaces a Notifier failure: unless rate limited it returns a result for
every Notifier outcome, and on a failed send it returns email_sent false,
fallback_used true and stores the code in the fallback store; the
forgot_password endpoint of src/app/routers/auth.py, by contrast,
surfaces an email-service error as a fatal 500 with no fallback. -/
theorem send_verification_email_never_fatal (email code : String) (emailSent : Bool)
    (now : Nat) (rl : RateMap) (st : TempStore)
    (hnl : (is_rate_limited email 5 300 now rl).1 = false) :
    (∃ out, (send_verification_email email code emailSent now rl st).1 = .ok out) ∧
    (send_verification_email email code false now rl st).1 = .ok ⟨false, true⟩ ∧
    (send_verification_email email code false now rl st).2.2 =
      store_temp_code st email code tEmail 10 now := by
  refine ⟨?_, ?_, ?_⟩
  · cases emailSent with
    | true => exact ⟨⟨true, false⟩, by simp [send_verification_email, hnl]⟩
    | false => exact ⟨⟨false, true⟩, by simp [send_verification_email, hnl]⟩
  · simp [send_verification_email, hnl]
  · simp [send_verification_email, hnl]

/-- Witness for the amended delivery-failure claim: with an empty rate map
a failing send still returns a degraded-delivery result. -/
theorem send_verification_email_never_fatal_witness :
    (send_verification_email emailA codeA false 0 [] []).1 = .ok ⟨false, true⟩ :=
  (send_verification_email_never_fatal emailA codeA false 0 [] [] (by decide)).2.1

/-- Claim C7: fallback round-trip.  When the Notifier fails on issue (and
the identity is not rate limited), send_verification_email reports
email_sent false, fallback_used true, and a later consume with the same
identity, code and the purpose under which the fallback was stored
returns true via the fallback store (before its expiry, with no matching
database row). -/
theorem fallback_roundtrip (email code : String) (now now2 : Nat)
    (rl : RateMap) (st : TempStore) (db : List CodeRecord)
    (hnl : (is_rate_limited email 5 300 now rl).1 = false)
    (hexp : now2 < now + 10 * 60)
    (hdb : lookupValid db email code tEmail now2 = none) :
    (send_verification_email email code false now rl st).1 = .ok ⟨false, true⟩ ∧
    (verify_code_with_fallback email code tEmail now2
      ⟨db, (send_verification_email email code false now rl st).2.2⟩).1 = true := by
  have hsend2 : (send_verification_email email code false now rl st).2.2 =
      store_temp_code st email code tEmail 10 now := by
    simp [send_verification_email, hnl]
  constructor
  · simp [send_verification_email, hnl]
  · rw [hsend2, verify_code_with_fallback]
    simp only [hdb]
    rw [store_temp_code, get_temp_code]
    simp [hexp]

/-- Witness for the fallback round-trip: a failing issue at time 0 leaves
code 111111 consumable at time 300. -/
theorem fallback_roundtrip_witness :
    (verify_code_with_fallback emailA codeA tEmail 300
      ⟨[], (send_verification_email emailA codeA false 0 [] []).2.2⟩).1 = true :=
  (fallback_roundtrip emailA codeA 0 300 [] [] [] (by decide) (by decide) (by decide)).2

/-- Claim C8: the fallback store is keyed by email alone and holds at most
one entry per email: after a store for an email, exactly one entry of
that email exists and it is the stored one, and storing a second code
under a different purpose makes the earlier (code, purpose) pair
unconsumable at every time. -/
theorem temp_store_keyed_by_email (st : TempStore) (email c1 t1 c2 t2 : String)
    (m1 m2 now1 now2 now3 : Nat) (hne : t1 ≠ t2) :
    List.countP (fun p => p.1 == email) (store_temp_code st email c2 t2 m2 now2) = 1 ∧
    List.find? (fun p => p.1 == email) (store_temp_code st email c2 t2 m2 now2) =
      some (email, ⟨c2, t2, now2 + m2 * 60, now2⟩) ∧
    (get_temp_code (store_temp_code (store_temp_code st email c1 t1 m1 now1)
        email c2 t2 m2 now2) email c1 t1 now3).1 = false := by
  refine ⟨?_, ?_, ?_⟩
  · rw [store_temp_code, List.countP_cons_of_pos _ _ (by simp)]
    have h0 : List.countP (fun p => p.1 == email)
        (List.filter (fun p => p.1 != email) st) = 0 := by
      rw [List.countP_eq_zero]
      intro p hp
      have := (List.mem_filter.mp hp).2
      simp only [bne_iff_ne, ne_eq] at this
      simp [this]
    rw [h0]
  · rw [store_temp_code, List.find?_cons_of_pos _ (by simp)]
  · rw [store_temp_code, get_temp_code]
    have hcond : ((⟨c2, t2, now2 + m2 * 60, now2⟩ : TempEntry).codeType == t1) = false := by
      simp
      exact fun h => hne (h.symm)
    simp [List.find?, hcond]

/-- Witness for the fallback-overwrite claim: a password-reset fallback
stored at time 5 makes the earlier verification fallback for the same
email unconsumable. -/
theorem temp_store_keyed_by_email_witness :
    (get_temp_code (store_temp_code (store_temp_code [] emailA codeA tEmail 10 0)
        emailA codeB tPasswordReset 15 5) emailA codeA tEmail 100).1 = false :=
  (temp_store_keyed_by_email [] emailA codeA tEmail codeB tPasswordReset
    10 15 0 5 100 (by decide)).2.2

/-- Claim C9: a verify_password_reset call changes no stored state — the
users table and the code table come back unchanged in every branch — and
when it succeeds, some unused matching record exists and the same call
keeps succeeding at every time before that record expires. -/
theorem verify_password_reset_frame (users : List UserRec) (db : List CodeRecord)
    (email resetCode : String) (now : Nat) :
    (verify_password_reset users db email resetCode now).2 = (users, db) ∧
    ((verify_password_reset users db email resetCode now).1 = .ok statusVerified →
      ∃ r ∈ db, matchesValid email resetCode tPasswordReset now r = true ∧
        ∀ now2, now2 < r.expiresAt →
          (verify_password_reset users db email resetCode now2).1 =
            .ok statusVerified) := by
  constructor
  · unfold verify_password_reset
    cases h1 : lookupValid db email resetCode tPasswordReset now with
    | none => rfl
    | some r =>
        cases h2 : List.find? (fun u => u.email == email) users with
        | none => rfl
        | some u => rfl
  · intro hok
    unfold verify_password_reset at hok
    cases h1 : lookupValid db email resetCode tPasswordReset now with
    | none => rw [h1] at hok; simp at hok
    | some r =>
        rw [h1] at hok
        cases h2 : List.find? (fun u => u.email == email) users with
        | none => rw [h2] at hok; simp at hok
        | some u =>
            have hrmem := List.mem_of_find?_eq_some h1
            have hrp := List.find?_some h1
            refine ⟨r, hrmem, hrp, fun now2 hlt => ?_⟩
            have hm2 : matchesValid email resetCode tPasswordReset now2 r = true := by
              rw [matchesValid_iff] at hrp ⊢
              obtain ⟨a, b, c, d, _⟩ := hrp
              exact ⟨a, b, c, d, hlt⟩
            have hsome : (List.find?
                (matchesValid email resetCode tPasswordReset now2) db).isSome := by
              rw [List.find?_isSome]
              exact ⟨r, hrmem, hm2⟩
            obtain ⟨x, hx⟩ := Option.isSome_iff_exists.mp hsome
            unfold verify_password_reset
            rw [lookupValid, hx, h2]

/-- Witness for the frame claim on verify_password_reset: a successful
verification at time 100 leaves state unchanged and repeats at any time
before expiry. -/
theorem verify_password_reset_frame_witness :
    (verify_password_reset [⟨0, emailA, pwA, nameA, false⟩]
        [⟨0, emailA, codeA, tPasswordReset, 900, false, 0⟩] emailA codeA 100).1 =
      Except.ok statusVerified ∧
    ∃ r ∈ [(⟨0, emailA, codeA, tPasswordReset, 900, false, 0⟩ : CodeRecord)],
      matchesValid emailA codeA tPasswordReset 100 r = true ∧
        ∀ now2, now2 < r.expiresAt →
          (verify_password_reset [⟨0, emailA, pwA, nameA, false⟩]
            [⟨0, emailA, codeA, tPasswordReset, 900, false, 0⟩] emailA codeA now2).1 =
            Except.ok statusVerified :=
  ⟨by decide,
   (verify_password_reset_frame [⟨0, emailA, pwA, nameA, false⟩]
     [⟨0, emailA, codeA, tPasswordReset, 900, false, 0⟩] emailA codeA 100).2 (by decide)⟩

/-- Claim C10: for a user who is already verified, verify_email returns
the already-verified success with the state unchanged, and its result is
the same for every submitted code, every code table and every time — it
neither reads nor writes any verification-code record. -/
theorem verify_email_already_verified (users : List UserRec)
    (db db2 : List CodeRecord) (email code code2 : String) (now now2 : Nat)
    (u : UserRec)
    (hu : List.find? (fun v => v.email == email) users = some u)
    (hv : u.isEmailVerified = true) :
    verify_email users db email code now = (.ok statusAlreadyVerified, users, db) ∧
    (verify_email users db2 email code2 now2).1 = .ok statusAlreadyVerified := by
  constructor
  · simp [verify_email, hu, hv]
  · simp [verify_email, hu, hv]

/-- Witness for the already-verified claim: a verified user with an empty
code table gets the already-verified success for an arbitrary code. -/
theorem verify_email_already_verified_witness :
    (verify_email [⟨0, emailA, pwA, nameA, true⟩] [] emailA codeB 5).1 =
      Except.ok statusAlreadyVerified :=
  (verify_email_already_verified [⟨0, emailA, pwA, nameA, true⟩] [] [] emailA codeB codeB
    5 5 ⟨0, emailA, pwA, nameA, true⟩ (by decide) (by decide)).2

end DebtTracker
